import Mathlib

/-!
Verification development for the `ccl_vhdx` VHDX reader
(`src/module/ccl_vhdx/ccl_vhdx.py`).

The Python module is shallowly embedded here:
  * a seekable binary file is a `ByteSeq` (an explicit size plus a byte
    function; `pyRead` mirrors `file.read`, which may return fewer bytes
    at EOF, while `readRaw` mirrors the module's `read_raw`, which raises
    on a short read);
  * fallible code returns `Except String`;
  * the mutable per-chunk sector-bitmap cache of `VhdxFile` is threaded
    explicitly (operations that mutate it return the updated `VhdxFile`).

Definitions follow the source line by line, including its quirks (the
`ignore_faults` flag that `VhdxFile.__init__` does not forward to the
header/region-table parsers, the truthiness test `if not metas and
fallback_metas`, the `f.read(1 << 23)` sector-bitmap read, the
one-yield-per-raw-index BAT iteration, and the inclusive sector range
check).
-/

namespace Vhdx

/-- A byte sequence: model of Python `bytes` and of the contents of a
seekable binary file.  `byteAt` is reduced mod 256 by `get` so that every
`ByteSeq` behaves like genuine bytes. -/
structure ByteSeq where
  size : Nat
  byteAt : Nat → Nat

def ByteSeq.get (b : ByteSeq) (i : Nat) : Nat := b.byteAt i % 256

def ByteSeq.toList (b : ByteSeq) : List Nat := (List.range b.size).map b.get

/-- Python `f.seek(pos); f.read(n)`: returns up to `n` bytes, fewer when
the end of the data is reached (no error). -/
def ByteSeq.pyRead (b : ByteSeq) (pos n : Nat) : ByteSeq :=
  { size := min n (b.size - pos), byteAt := fun i => b.byteAt (pos + i) }

/-- Python slicing `b[lo:hi]` (step 1): indices are clamped to the length. -/
def ByteSeq.pySlice (b : ByteSeq) (lo hi : Nat) : ByteSeq :=
  { size := min hi b.size - min lo b.size, byteAt := fun i => b.byteAt (min lo b.size + i) }

/-- `read_raw`: read exactly `n` bytes at `pos`, failing on a short read.
Returns the bytes and the advanced position. -/
def readRaw (b : ByteSeq) (pos n : Nat) : Except String (ByteSeq × Nat) :=
  if b.size - pos < n then Except.error "short read"
  else Except.ok (b.pyRead pos n, pos + n)

/-- Little-endian value of the first `k` bytes. -/
def ByteSeq.leValueAux (b : ByteSeq) : Nat → Nat
  | 0 => 0
  | Nat.succ k => b.leValueAux k + b.get k * 256 ^ k

/-- Little-endian value of a whole byte sequence (model of
`struct.unpack` with `<H` / `<I` / `<Q`). -/
def ByteSeq.leValue (b : ByteSeq) : Nat := b.leValueAux b.size

/-- `read_uint16` / `read_uint32` / `read_uint64`, by width `w`. -/
def readUintN (b : ByteSeq) (pos w : Nat) : Except String (Nat × Nat) :=
  match readRaw b pos w with
  | Except.error e => Except.error e
  | Except.ok (r, p) => Except.ok (r.leValue, p)

def readUint16 (b : ByteSeq) (pos : Nat) : Except String (Nat × Nat) := readUintN b pos 2

def readUint32 (b : ByteSeq) (pos : Nat) : Except String (Nat × Nat) := readUintN b pos 4

def readUint64 (b : ByteSeq) (pos : Nat) : Except String (Nat × Nat) := readUintN b pos 8

/-- `read_guid`: 16 raw bytes, materialised as a list so GUIDs can be
used as dictionary keys. -/
def readGuid (b : ByteSeq) (pos : Nat) : Except String (List Nat × Nat) :=
  match readRaw b pos 16 with
  | Except.error e => Except.error e
  | Except.ok (r, p) => Except.ok (r.toList, p)

/-- Python `a // b` on nonnegative ints: `ZeroDivisionError` when `b = 0`. -/
def pydiv (a b : Nat) : Except String Nat :=
  if b = 0 then Except.error "integer division or modulo by zero" else Except.ok (a / b)

/-- Python `a % b` on nonnegative ints: `ZeroDivisionError` when `b = 0`. -/
def pymod (a b : Nat) : Except String Nat :=
  if b = 0 then Except.error "integer division or modulo by zero" else Except.ok (a % b)

/-- Python `metas[key]` on a missing key (`KeyError`). -/
def metaGet {α : Type} (o : Option α) (key : String) : Except String α :=
  match o with
  | some x => Except.ok x
  | none => Except.error ("KeyError: " ++ key)

instance {ε α : Type} [DecidableEq ε] [DecidableEq α] : DecidableEq (Except ε α) :=
  fun a b =>
    match a, b with
    | Except.ok x, Except.ok y =>
      if h : x = y then Decidable.isTrue (by rw [h]) else Decidable.isFalse (by simp [h])
    | Except.error x, Except.error y =>
      if h : x = y then Decidable.isTrue (by rw [h]) else Decidable.isFalse (by simp [h])
    | Except.ok _, Except.error _ => Decidable.isFalse (by simp)
    | Except.error _, Except.ok _ => Decidable.isFalse (by simp)

/-! ## GUID codec (`guid_to_blob`) -/

def hexVal (c : Char) : Except String Nat :=
  if '0' ≤ c ∧ c ≤ '9' then Except.ok (c.toNat - '0'.toNat)
  else if 'a' ≤ c ∧ c ≤ 'f' then Except.ok (c.toNat - 'a'.toNat + 10)
  else if 'A' ≤ c ∧ c ≤ 'F' then Except.ok (c.toNat - 'A'.toNat + 10)
  else Except.error "non-hexadecimal number found in fromhex() arg"

/-- `bytes.fromhex`: consume hex digits two at a time. -/
def hexPairs : List Char → Except String (List Nat)
  | [] => Except.ok []
  | [_] => Except.error "non-hexadecimal number found in fromhex() arg"
  | a :: b :: rest =>
    match hexVal a with
    | Except.error e => Except.error e
    | Except.ok va =>
      match hexVal b with
      | Except.error e => Except.error e
      | Except.ok vb =>
        match hexPairs rest with
        | Except.error e => Except.error e
        | Except.ok vs => Except.ok ((va * 16 + vb) :: vs)

/-- `guid_to_blob(guid_string)`: strip dashes, hex-decode, check length 16,
then reorder `x[3::-1] + x[5:3:-1] + x[7:5:-1] + x[8:]`. -/
def guid_to_blob (s : String) : Except String (List Nat) :=
  match hexPairs (s.toList.filter (fun c => c ≠ '-')) with
  | Except.error e => Except.error e
  | Except.ok x =>
    if x.length ≠ 16 then Except.error "invalid length for a guid string"
    else Except.ok ((x.take 4).reverse ++ ((x.drop 4).take 2).reverse ++
                    ((x.drop 6).take 2).reverse ++ x.drop 8)

/-! ## Module constants -/

def VHDX_MAGIC : List Nat := [118, 104, 100, 120, 102, 105, 108, 101]

def HEAD_MAGIC : List Nat := [104, 101, 97, 100]

def REGION_TABLE_MAGIC : List Nat := [114, 101, 103, 105]

def METADATA_TABLE_MAGIC : List Nat := [109, 101, 116, 97, 100, 97, 116, 97]

def CREATOR_LENGTH : Nat := 512

def REGION_GUID_BAT : String := "2DC27766-F623-4200-9D64-115E9BFD4A08"

def REGION_GUID_METADATA : String := "8B7CA206-4790-4B9A-B8FE-575F050F886E"

def METADATA_FILE_PARAMETERS : String := "CAA16737-FA36-4D43-B3B6-33F0AA44E76B"

def METADATA_VIRTUAL_DISK_SIZE : String := "2FA54224-CD1B-4876-B211-5DBED83BF4B8"

def METADATA_PAGE_83_DATA : String := "BECA12AB-B2E6-4523-93EF-C309E000C746"

def METADATA_LOGICAL_SECTOR_SIZE : String := "8141BF1D-A96F-4709-BA47-F233A8FAAB5F"

def METADATA_PHYSICAL_SECTOR_SIZE : String := "CDA348C7-445D-4471-9CC9-E9885251C556"

def METADATA_PARENT_LOCATOR : String := "A8D35F2D-B30B-454D-ABF7-D3D84834AB0C"

def PARENT_LOCATOR_TYPE_VHDX : String := "B04AEFB7-D19E-4A81-B789-25B8E9445913"

def MAX_INFERRED_SIZE : Nat := 0x8000000000

/-- The blob `guid_to_blob(REGION_GUID_BAT)` evaluates to (used to build
concrete region tables in the developments below). -/
def regionGuidBatBlobList : List Nat :=
  [102, 119, 194, 45, 35, 246, 0, 66, 157, 100, 17, 94, 155, 253, 74, 8]

example : guid_to_blob REGION_GUID_BAT = Except.ok regionGuidBatBlobList := by decide

/-! ## BAT entries -/

/-- `BatPayloadBlockState` (`enum.IntEnum`): only the listed values exist;
`BatPayloadBlockState(4)` and `(5)` raise `ValueError`. -/
inductive BatPayloadBlockState where
  | notPresent        -- 0
  | undef             -- 1 (BAT_PAYLOAD_BLOCK_UNDEFINED)
  | zero              -- 2
  | unmapped          -- 3
  | fullyPresent      -- 6
  | partPresent       -- 7 (BAT_PAYLOAD_BLOCK_PARTIALLY_PRESENT)
  deriving DecidableEq

/-- `BatPayloadBlockState(value)`: the IntEnum constructor call. -/
def BatPayloadBlockState.ofValue : Nat → Except String BatPayloadBlockState
  | 0 => Except.ok BatPayloadBlockState.notPresent
  | 1 => Except.ok BatPayloadBlockState.undef
  | 2 => Except.ok BatPayloadBlockState.zero
  | 3 => Except.ok BatPayloadBlockState.unmapped
  | 6 => Except.ok BatPayloadBlockState.fullyPresent
  | 7 => Except.ok BatPayloadBlockState.partPresent
  | _ => Except.error "is not a valid BatPayloadBlockState"

/-- A decoded BAT entry; `offset` is already scaled
(`file_offset_mb * (1 << 20)` as in `BatEntry.__init__`). -/
structure BatEntry where
  state : BatPayloadBlockState
  offset : Nat
  deriving DecidableEq

/-- `BatEntry.from_stream` after the `read_uint64`: low three bits are the
state (invalid values raise), bits [20..64) the offset in MiB units. -/
def BatEntry.fromRaw (raw : Nat) : Except String BatEntry :=
  match BatPayloadBlockState.ofValue (raw % 8) with
  | Except.error e => Except.error e
  | Except.ok st => Except.ok { state := st, offset := ((raw / 2 ^ 20) % 2 ^ 44) * 2 ^ 20 }

/-- `BatEntry.from_stream`: read a `u64` at `pos` and decode it. -/
def BatEntry.fromStream (file : ByteSeq) (pos : Nat) : Except String BatEntry :=
  match readUint64 file pos with
  | Except.error e => Except.error e
  | Except.ok (raw, _) => BatEntry.fromRaw raw

example : BatEntry.fromRaw 0x100006 =
    Except.ok { state := BatPayloadBlockState.fullyPresent, offset := 2 ^ 20 } := by decide

/-! ## Header -/

/-- `Header`: the parsed fields `Header.__init__` stores (the checksum is
read but not kept, as in the source). -/
structure Header where
  seqNumber : Nat
  fileWriteGuid : List Nat
  dataWriteGuid : List Nat
  logGuid : List Nat
  logVersion : Nat
  version : Nat
  logLength : Nat
  logOffset : Nat

/-- `Header.from_stream`: read a 4096-byte payload, parse it, then skip
60 KiB to the next 64 KiB boundary.  Magic and version faults raise unless
`ignore_faults` is set. -/
def headerFromStream (file : ByteSeq) (pos : Nat) (ignoreFaults : Bool) :
    Except String (Header × Nat) :=
  match readRaw file pos 4096 with
  | Except.error e => Except.error e
  | Except.ok (raw, pos1) =>
    match readRaw raw 0 4 with
    | Except.error e => Except.error e
    | Except.ok (magic, p) =>
      if magic.toList ≠ HEAD_MAGIC ∧ ¬ignoreFaults then
        Except.error "Invalid header magic"
      else
        match readUint32 raw p with
        | Except.error e => Except.error e
        | Except.ok (_checksum, p) =>
          match readUint64 raw p with
          | Except.error e => Except.error e
          | Except.ok (seqNumber, p) =>
            match readGuid raw p with
            | Except.error e => Except.error e
            | Except.ok (fileWriteGuid, p) =>
              match readGuid raw p with
              | Except.error e => Except.error e
              | Except.ok (dataWriteGuid, p) =>
                match readGuid raw p with
                | Except.error e => Except.error e
                | Except.ok (logGuid, p) =>
                  match readUint16 raw p with
                  | Except.error e => Except.error e
                  | Except.ok (logVersion, p) =>
                    match readUint16 raw p with
                    | Except.error e => Except.error e
                    | Except.ok (version, p) =>
                      match readUint32 raw p with
                      | Except.error e => Except.error e
                      | Except.ok (logLength, p) =>
                        match readUint64 raw p with
                        | Except.error e => Except.error e
                        | Except.ok (logOffset, _) =>
                          if version ≠ 1 ∧ ¬ignoreFaults then
                            Except.error "Invalid version in the header"
                          else
                            Except.ok ({ seqNumber := seqNumber,
                                         fileWriteGuid := fileWriteGuid,
                                         dataWriteGuid := dataWriteGuid,
                                         logGuid := logGuid,
                                         logVersion := logVersion,
                                         version := version,
                                         logLength := logLength,
                                         logOffset := logOffset },
                                       pos1 + 1024 * 60)

/-- `VhdxFile.__init__` line 507: the current header is A when its
sequence number is strictly greater, otherwise B (so ties pick B). -/
def selectHeader (a b : Header) : Header :=
  if a.seqNumber > b.seqNumber then a else b

/-! ## FileIdentifier -/

/-- `FileIdentifier.from_stream`: magic (raises only when not tolerant),
512-byte creator, then seek to the next 64 KiB boundary. -/
def fileIdentifierFromStream (file : ByteSeq) (pos : Nat) (ignoreFaults : Bool) :
    Except String (ByteSeq × Nat) :=
  match readRaw file pos 8 with
  | Except.error e => Except.error e
  | Except.ok (magic, p) =>
    if magic.toList ≠ VHDX_MAGIC ∧ ¬ignoreFaults then
      Except.error "Invalid header section magic"
    else
      match readRaw file p CREATOR_LENGTH with
      | Except.error e => Except.error e
      | Except.ok (creator, p) =>
        Except.ok (creator, p + (1024 * 64 - CREATOR_LENGTH - 8))

/-! ## Region table -/

structure RegionTableEntry where
  guid : List Nat
  offset : Nat
  length : Nat
  required : Bool
  deriving DecidableEq

/-- `RegionTableEntry.from_stream`: guid, offset u64, length u32,
flags u32 (bit 0 is the required flag). -/
def regionTableEntryFromStream (buf : ByteSeq) (pos : Nat) :
    Except String (RegionTableEntry × Nat) :=
  match readGuid buf pos with
  | Except.error e => Except.error e
  | Except.ok (guid, p) =>
    match readUint64 buf p with
    | Except.error e => Except.error e
    | Except.ok (fileOffset, p) =>
      match readUint32 buf p with
      | Except.error e => Except.error e
      | Except.ok (length, p) =>
        match readUint32 buf p with
        | Except.error e => Except.error e
        | Except.ok (flags, p) =>
          Except.ok ({ guid := guid, offset := fileOffset, length := length,
                       required := flags % 2 ≠ 0 }, p)

/-- `RegionTableEntry.__eq__`: compares guid, length and offset only — the
required flag takes no part in the comparison. -/
def regionTableEntryEq (a b : RegionTableEntry) : Bool :=
  a.guid == b.guid && a.length == b.length && a.offset == b.offset

/-- `RegionTable` is a GUID-blob-keyed mapping; insertion order matters
for iteration, so it is an association list. -/
abbrev RegionTable := List (List Nat × RegionTableEntry)

def lookupBlob : RegionTable → List Nat → Option RegionTableEntry
  | [], _ => none
  | (k, e) :: rest, key => if k = key then some e else lookupBlob rest key

/-- Python dict assignment `table[key] = entry`: overwrite in place,
append otherwise. -/
def insertBlob : RegionTable → List Nat → RegionTableEntry → RegionTable
  | [], k, e => [(k, e)]
  | (k', e') :: rest, k, e =>
    if k' = k then (k', e) :: rest else (k', e') :: insertBlob rest k e

/-- The entry loop of `RegionTable.from_stream`: a duplicate GUID raises
unless tolerant (the entry then overwrites the earlier one, as the
unconditional dict assignment does). -/
def regionEntriesLoop (buf : ByteSeq) (ignoreFaults : Bool) :
    Nat → Nat → RegionTable → Except String RegionTable
  | 0, _, acc => Except.ok acc
  | Nat.succ k, pos, acc =>
    match regionTableEntryFromStream buf pos with
    | Except.error e => Except.error e
    | Except.ok (entry, pos') =>
      if (lookupBlob acc entry.guid).isSome ∧ ¬ignoreFaults then
        Except.error "Multiple Region Table entries with the same key"
      else
        regionEntriesLoop buf ignoreFaults k pos' (insertBlob acc entry.guid entry)

/-- `RegionTable.from_stream`: reads a 64 KiB slot.  Note two source
quirks reproduced faithfully: a bad magic raises even in tolerant mode
(the `raise` is not guarded by `else`), and an entry count over 2047 is
only logged in tolerant mode — the count is *not* clamped. -/
def regionTableFromStream (file : ByteSeq) (pos : Nat) (ignoreFaults : Bool) :
    Except String (RegionTable × Nat) :=
  match readRaw file pos (1024 * 64) with
  | Except.error e => Except.error e
  | Except.ok (raw, pos1) =>
    match readRaw raw 0 4 with
    | Except.error e => Except.error e
    | Except.ok (magic, p) =>
      if magic.toList ≠ REGION_TABLE_MAGIC then
        Except.error "Invalid region table magic"
      else
        match readUint32 raw p with
        | Except.error e => Except.error e
        | Except.ok (_checksum, p) =>
          match readUint32 raw p with
          | Except.error e => Except.error e
          | Except.ok (entryCount, p) =>
            if entryCount > 2047 ∧ ¬ignoreFaults then
              Except.error "Region table entry count over 2047"
            else
              match readUint32 raw p with
              | Except.error e => Except.error e
              | Except.ok (_reserved, p) =>
                match regionEntriesLoop raw ignoreFaults entryCount p [] with
                | Except.error e => Except.error e
                | Except.ok table => Except.ok (table, pos1)

/-- The copy comparison loop of `VhdxFile.__init__` (lines 518-520):
`for key in region_table_a: if region_table_a[key] != region_table_b[key]`.
A key of A missing from B is a `KeyError`. -/
def compareRegionEntries : List (List Nat × RegionTableEntry) → RegionTable →
    Except String Unit
  | [], _ => Except.ok ()
  | (k, e) :: rest, b =>
    match lookupBlob b k with
    | none => Except.error "KeyError: region table key"
    | some e' =>
      if regionTableEntryEq e e' then compareRegionEntries rest b
      else Except.error "region tables do not match"

/-- Lines 516-523 of `VhdxFile.__init__`: compare lengths, compare the
entries of A against B, and when everything matches use the first copy. -/
def mergeRegionTables (a b : RegionTable) : Except String RegionTable :=
  if a.length ≠ b.length then Except.error "region tables do not match"
  else
    match compareRegionEntries a b with
    | Except.error e => Except.error e
    | Except.ok _ => Except.ok a

/-! ## Metadata -/

/-- The metadata dictionary.  The six item parsers of `Metadata` can only
ever yield these keys, so the Python dict is modelled as a record of
optional fields (a missing key is `none`).  Parent-locator keys and
values are kept as raw byte lists (the source decodes them as UTF-16LE
strings; only the length-parity failure of that decoding is modelled). -/
structure MetaDict where
  BlockSize : Option Nat := none
  LeaveBlocksAllocated : Option Bool := none
  HasParent : Option Bool := none
  VirtualDiskSize : Option Nat := none
  Page83Data : Option (List Nat) := none
  LogicalSectorSize : Option Nat := none
  PhysicalSectorSize : Option Nat := none
  ParentLocator : Option (List (List Nat × List Nat)) := none
  deriving DecidableEq

/-- Python truthiness of a metadata mapping: `not metas` is true exactly
when it has no keys (for `MetadataTable`, `__len__` counts the parsed
meta keys). -/
def MetaDict.isEmpty (m : MetaDict) : Bool :=
  m.BlockSize.isNone && m.LeaveBlocksAllocated.isNone && m.HasParent.isNone &&
  m.VirtualDiskSize.isNone && m.Page83Data.isNone && m.LogicalSectorSize.isNone &&
  m.PhysicalSectorSize.isNone && m.ParentLocator.isNone

/-- `if meta_item_key in metas: raise ValueError("Duplicate metadata keys")`,
specialised per key by the setters below. -/
def dupKeyError {α : Type} : Except String α := Except.error "Duplicate metadata keys"

def MetaDict.setBlockSize (m : MetaDict) (v : Nat) : Except String MetaDict :=
  match m.BlockSize with
  | some _ => dupKeyError
  | none => Except.ok { m with BlockSize := some v }

def MetaDict.setLeaveBlocksAllocated (m : MetaDict) (v : Bool) : Except String MetaDict :=
  match m.LeaveBlocksAllocated with
  | some _ => dupKeyError
  | none => Except.ok { m with LeaveBlocksAllocated := some v }

def MetaDict.setHasParent (m : MetaDict) (v : Bool) : Except String MetaDict :=
  match m.HasParent with
  | some _ => dupKeyError
  | none => Except.ok { m with HasParent := some v }

def MetaDict.setVirtualDiskSize (m : MetaDict) (v : Nat) : Except String MetaDict :=
  match m.VirtualDiskSize with
  | some _ => dupKeyError
  | none => Except.ok { m with VirtualDiskSize := some v }

def MetaDict.setPage83Data (m : MetaDict) (v : List Nat) : Except String MetaDict :=
  match m.Page83Data with
  | some _ => dupKeyError
  | none => Except.ok { m with Page83Data := some v }

def MetaDict.setLogicalSectorSize (m : MetaDict) (v : Nat) : Except String MetaDict :=
  match m.LogicalSectorSize with
  | some _ => dupKeyError
  | none => Except.ok { m with LogicalSectorSize := some v }

def MetaDict.setPhysicalSectorSize (m : MetaDict) (v : Nat) : Except String MetaDict :=
  match m.PhysicalSectorSize with
  | some _ => dupKeyError
  | none => Except.ok { m with PhysicalSectorSize := some v }

def MetaDict.setParentLocator (m : MetaDict) (v : List (List Nat × List Nat)) :
    Except String MetaDict :=
  match m.ParentLocator with
  | some _ => dupKeyError
  | none => Except.ok { m with ParentLocator := some v }

/-- `MetadataTableEntry`: item id, offset and length are the only fields
`__init__` keeps (the flags are parsed and discarded). -/
structure MetadataTableEntry where
  itemId : List Nat
  offset : Nat
  length : Nat
  deriving DecidableEq

/-- `MetadataTableEntry.from_stream`. -/
def metadataTableEntryFromStream (file : ByteSeq) (pos : Nat) :
    Except String (MetadataTableEntry × Nat) := do
  let (itemId, p) ← readGuid file pos
  let (offset, p) ← readUint32 file p
  let (length, p) ← readUint32 file p
  let (_flags, p) ← readUint32 file p
  let (_reserved, p) ← readUint32 file p
  pure ({ itemId := itemId, offset := offset, length := length }, p)

def metadataEntriesLoop (file : ByteSeq) :
    Nat → Nat → Except String (List MetadataTableEntry × Nat)
  | 0, pos => Except.ok ([], pos)
  | Nat.succ k, pos => do
    let (entry, pos') ← metadataTableEntryFromStream file pos
    let (rest, posEnd) ← metadataEntriesLoop file k pos'
    pure (entry :: rest, posEnd)

/-- `Metadata.parse_file_parameters` feeding the duplicate-checking
insertion loop: yields BlockSize, LeaveBlocksAllocated, HasParent. -/
def parseFileParametersInto (m : MetaDict) (data : ByteSeq) : Except String MetaDict := do
  let (blockSize, p) ← readUint32 data 0
  let (flags, _) ← readUint32 data p
  let m ← m.setBlockSize blockSize
  let m ← m.setLeaveBlocksAllocated (flags % 2 ≠ 0)
  m.setHasParent (flags / 2 % 2 ≠ 0)

def parseVirtualDiskSizeInto (m : MetaDict) (data : ByteSeq) : Except String MetaDict := do
  let (v, _) ← readUint64 data 0
  m.setVirtualDiskSize v

def parsePage83DataInto (m : MetaDict) (data : ByteSeq) : Except String MetaDict := do
  let (v, _) ← readGuid data 0
  m.setPage83Data v

def parseLogicalSectorSizeInto (m : MetaDict) (data : ByteSeq) : Except String MetaDict := do
  let (v, _) ← readUint32 data 0
  m.setLogicalSectorSize v

def parsePhysicalSectorSizeInto (m : MetaDict) (data : ByteSeq) : Except String MetaDict := do
  let (v, _) ← readUint32 data 0
  m.setPhysicalSectorSize v

/-- One `(KeyOffset, ValueOffset, KeyLength, ValueLength)` record. -/
def parentLocatorRecordsLoop (data : ByteSeq) :
    Nat → Nat → Except String (List (Nat × Nat × Nat × Nat) × Nat)
  | 0, pos => Except.ok ([], pos)
  | Nat.succ k, pos => do
    let (keyOffset, p) ← readUint32 data pos
    let (valueOffset, p) ← readUint32 data p
    let (keyLength, p) ← readUint16 data p
    let (valueLength, p) ← readUint16 data p
    let (rest, posEnd) ← parentLocatorRecordsLoop data k p
    pure ((keyOffset, valueOffset, keyLength, valueLength) :: rest, posEnd)

/-- Python dict assignment for the locator fields (overwrite or append). -/
def insertLocatorField : List (List Nat × List Nat) → List Nat → List Nat →
    List (List Nat × List Nat)
  | [], k, v => [(k, v)]
  | (k', v') :: rest, k, v =>
    if k' = k then (k', v) :: rest else (k', v') :: insertLocatorField rest k v

/-- A UTF-16LE byte string of odd length cannot decode; the decoded text
itself is kept as its raw bytes. -/
def utf16leBytes (b : ByteSeq) : Except String (List Nat) :=
  if b.size % 2 ≠ 0 then Except.error "utf-16-le decode error" else Except.ok b.toList

def parentLocatorFieldsLoop (data : ByteSeq) :
    List (Nat × Nat × Nat × Nat) → List (List Nat × List Nat) →
    Except String (List (List Nat × List Nat))
  | [], acc => Except.ok acc
  | (keyOffset, valueOffset, keyLength, valueLength) :: rest, acc => do
    let (keyRaw, _) ← readRaw data keyOffset keyLength
    let key ← utf16leBytes keyRaw
    let (valueRaw, _) ← readRaw data valueOffset valueLength
    let value ← utf16leBytes valueRaw
    parentLocatorFieldsLoop data rest (insertLocatorField acc key value)

/-- `Metadata.parse_parent_locator`: locator type (only logged when
unexpected), reserved, count, the records, then the key/value strings. -/
def parseParentLocatorInto (m : MetaDict) (data : ByteSeq) : Except String MetaDict := do
  let (_locatorType, p) ← readGuid data 0
  let (_reserved, p) ← readUint16 data p
  let (keyValueCount, p) ← readUint16 data p
  let (records, _) ← parentLocatorRecordsLoop data keyValueCount p
  let fields ← parentLocatorFieldsLoop data records []
  m.setParentLocator fields

/-- `Metadata.parse_metadata_entry`: dispatch on the item-id blob; an
unknown id is a `KeyError` from the dict lookup. -/
def applyMetadataEntry (m : MetaDict) (itemId : List Nat) (data : ByteSeq) :
    Except String MetaDict := do
  let fileParametersBlob ← guid_to_blob METADATA_FILE_PARAMETERS
  let virtualDiskSizeBlob ← guid_to_blob METADATA_VIRTUAL_DISK_SIZE
  let page83Blob ← guid_to_blob METADATA_PAGE_83_DATA
  let logicalSectorSizeBlob ← guid_to_blob METADATA_LOGICAL_SECTOR_SIZE
  let physicalSectorSizeBlob ← guid_to_blob METADATA_PHYSICAL_SECTOR_SIZE
  let parentLocatorBlob ← guid_to_blob METADATA_PARENT_LOCATOR
  if itemId = fileParametersBlob then parseFileParametersInto m data
  else if itemId = virtualDiskSizeBlob then parseVirtualDiskSizeInto m data
  else if itemId = page83Blob then parsePage83DataInto m data
  else if itemId = logicalSectorSizeBlob then parseLogicalSectorSizeInto m data
  else if itemId = physicalSectorSizeBlob then parsePhysicalSectorSizeInto m data
  else if itemId = parentLocatorBlob then parseParentLocatorInto m data
  else Except.error "KeyError: unknown metadata item id"

/-- The second loop of `MetadataTable.from_stream`: seek to
`origin + entry.offset`, read `entry.length` bytes, parse and insert
(duplicate keys raise unconditionally). -/
def processMetadataEntries (file : ByteSeq) (origin : Nat) :
    List MetadataTableEntry → MetaDict → Except String MetaDict
  | [], m => Except.ok m
  | e :: rest, m => do
    let (data, _) ← readRaw file (origin + e.offset) e.length
    let m' ← applyMetadataEntry m e.itemId data
    processMetadataEntries file origin rest m'

/-- `MetadataTable.from_stream` (called with the stream positioned at the
metadata region offset, which becomes `origin`). -/
def metadataTableFromStream (file : ByteSeq) (origin : Nat) (ignoreFaults : Bool) :
    Except String MetaDict :=
  match readRaw file origin 8 with
  | Except.error e => Except.error e
  | Except.ok (magic, pos) =>
    if magic.toList ≠ METADATA_TABLE_MAGIC ∧ ¬ignoreFaults then
      Except.error "Invalid Metadata table magic"
    else
      match readUint16 file pos with
      | Except.error e => Except.error e
      | Except.ok (_reserved1, pos) =>
        match readUint16 file pos with
        | Except.error e => Except.error e
        | Except.ok (entryCount, pos) =>
          match readRaw file pos 20 with
          | Except.error e => Except.error e
          | Except.ok (_reserved2, pos) =>
            match metadataEntriesLoop file entryCount pos with
            | Except.error e => Except.error e
            | Except.ok (entries, _) =>
              processMetadataEntries file origin entries {}

/-! ## The container -/

/-- `VhdxFile` after `__init__`: the path is replaced by the file's bytes
(per-call reopens in the source always see the same immutable file), and
the mutable sector-bitmap cache is an explicit association list from
chunk index to `none` (verified missing) or a bitmap. -/
structure VhdxFile where
  file : ByteSeq
  header : Header
  regionTable : RegionTable
  metas : MetaDict
  logicalSectorSize : Nat
  physicalSectorSize : Nat
  blockSize : Nat
  chunkRatio : Nat
  sectorBitmapCache : List (Nat × Option ByteSeq)
  usingFallbackMetas : Bool

def cacheLookup : List (Nat × Option ByteSeq) → Nat → Option (Option ByteSeq)
  | [], _ => none
  | (k, v) :: rest, key => if k = key then some v else cacheLookup rest key

def cacheInsert (v : VhdxFile) (chunkIndex : Nat) (bm : Option ByteSeq) : VhdxFile :=
  { v with sectorBitmapCache := v.sectorBitmapCache ++ [(chunkIndex, bm)] }

/-- `self._empty_block`: `BlockSize` zero bytes. -/
def emptyBlock (v : VhdxFile) : ByteSeq := { size := v.blockSize, byteAt := fun _ => 0 }

/-- `self._empty_sector`: `LogicalSectorSize` zero bytes. -/
def emptySector (v : VhdxFile) : ByteSeq :=
  { size := v.logicalSectorSize, byteAt := fun _ => 0 }

/-- `payload_block_count = raw_bat_entry_count - raw_bat_entry_count // chunk_ratio`
(line 553, the VirtualDiskSize inference). -/
def payloadBlockCount (rawEntryCount cratio : Nat) : Nat :=
  rawEntryCount - rawEntryCount / cratio

/-- Truthiness of the `fallback_metas` argument (`None` and an empty dict
are falsy). -/
def fallbackTruthy : Option MetaDict → Bool
  | none => false
  | some d => ¬d.isEmpty

/-- Lines 541-561 of `VhdxFile.__init__`: the `if not metas and
fallback_metas` fallback block, including the VirtualDiskSize inference
from the BAT region length.  Returns the final metas and the
`_using_fallback_metas` flag. -/
def inferFallback (rt : RegionTable) (metas0 : MetaDict) (fb : Option MetaDict) :
    Except String (MetaDict × Bool) :=
  match fb with
  | none => Except.ok (metas0, false)
  | some d =>
    if metas0.isEmpty && ¬d.isEmpty then
      match d.VirtualDiskSize with
      | some _ => Except.ok (d, true)
      | none => do
        let batBlob ← guid_to_blob REGION_GUID_BAT
        match lookupBlob rt batBlob with
        | none => Except.error "KeyError: BAT region"
        | some info => do
          let rawBatEntryCount := info.length / 8
          let lssf ← metaGet d.LogicalSectorSize "LogicalSectorSize"
          let bsf ← metaGet d.BlockSize "BlockSize"
          let cratio ← pydiv (2 ^ 23 * lssf) bsf
          if cratio = 0 then Except.error "integer division or modulo by zero"
          else
            let inferredSize := payloadBlockCount rawBatEntryCount cratio * bsf
            if inferredSize > MAX_INFERRED_SIZE then
              Except.error "Inferred size of VirtualDiskSize was over MAX_INFERRED_SIZE"
            else
              Except.ok ({ d with VirtualDiskSize := some inferredSize }, true)
    else Except.ok (metas0, false)

/-- `VhdxFile.__init__` (`open`).  Faithful to the source: `ignore_faults`
is forwarded to `FileIdentifier.from_stream` and
`MetadataTable.from_stream` but *not* to `Header.from_stream` or
`RegionTable.from_stream`. -/
def vhdxOpen (file : ByteSeq) (ignoreFaults : Bool) (fallbackMetas : Option MetaDict) :
    Except String VhdxFile := do
  let (_creator, pos) ← fileIdentifierFromStream file 0 ignoreFaults
  let (headerA, pos) ← headerFromStream file pos false
  let (headerB, pos) ← headerFromStream file pos false
  let currentHeader := selectHeader headerA headerB
  let (regionTableA, pos) ← regionTableFromStream file pos false
  let (regionTableB, _) ← regionTableFromStream file pos false
  let regionTable ← mergeRegionTables regionTableA regionTableB
  let metadataBlob ← guid_to_blob REGION_GUID_METADATA
  let metas0 ←
    match lookupBlob regionTable metadataBlob with
    | some metaInfo => metadataTableFromStream file metaInfo.offset ignoreFaults
    | none =>
      match fallbackMetas with
      | some d =>
        if ignoreFaults && ¬d.isEmpty then Except.ok d
        else Except.error "No metadata block defined"
      | none => Except.error "No metadata block defined"
  let (metas, usingFallback) ← inferFallback regionTable metas0 fallbackMetas
  let logicalSectorSize ← metaGet metas.LogicalSectorSize "LogicalSectorSize"
  let physicalSectorSize ← metaGet metas.PhysicalSectorSize "PhysicalSectorSize"
  let blockSize ← metaGet metas.BlockSize "BlockSize"
  let cratio ← pydiv (2 ^ 23 * logicalSectorSize) blockSize
  pure { file := file,
         header := currentHeader,
         regionTable := regionTable,
         metas := metas,
         logicalSectorSize := logicalSectorSize,
         physicalSectorSize := physicalSectorSize,
         blockSize := blockSize,
         chunkRatio := cratio,
         sectorBitmapCache := [],
         usingFallbackMetas := usingFallback }

/-! ## Sector and block operations -/

/-- The range check repeated verbatim at the top of
`_get_bat_index_for_logical_sector`, `get_bat_entry_for_logical_sector`,
`is_sector_allocated` and `get_sector`:
`if sector_number > metas["VirtualDiskSize"] // metas["LogicalSectorSize"] or sector_number < 0`.
Note the comparison is `>`, so `sector_number == VirtualDiskSize // LogicalSectorSize`
passes. -/
def sectorRangeCheck (v : VhdxFile) (s : Int) : Except String Unit :=
  match metaGet v.metas.VirtualDiskSize "VirtualDiskSize" with
  | Except.error e => Except.error e
  | Except.ok vds =>
    match metaGet v.metas.LogicalSectorSize "LogicalSectorSize" with
    | Except.error e => Except.error e
    | Except.ok lss =>
      match pydiv vds lss with
      | Except.error e => Except.error e
      | Except.ok q =>
        if s > (q : Int) ∨ s < 0 then Except.error "Sector number out of range"
        else Except.ok ()

/-- `_get_bat_index_for_logical_sector`: raw payload index plus the
sector-bitmap entries in the way. -/
def getBatIndexForLogicalSector (v : VhdxFile) (s : Int) : Except String Nat :=
  match sectorRangeCheck v s with
  | Except.error e => Except.error e
  | Except.ok _ =>
    match pydiv (s.toNat * v.logicalSectorSize) v.blockSize with
    | Except.error e => Except.error e
    | Except.ok rawIndex =>
      match pydiv rawIndex v.chunkRatio with
      | Except.error e => Except.error e
      | Except.ok q => Except.ok (rawIndex + q)

/-- `get_bat_entry_for_logical_sector`: range check, locate the BAT
region, seek to `bat_offset + index * 8`, decode one entry. -/
def getBatEntryForLogicalSector (v : VhdxFile) (s : Int) : Except String BatEntry :=
  match sectorRangeCheck v s with
  | Except.error e => Except.error e
  | Except.ok _ =>
    match guid_to_blob REGION_GUID_BAT with
    | Except.error e => Except.error e
    | Except.ok batBlob =>
      match lookupBlob v.regionTable batBlob with
      | none => Except.error "KeyError: BAT region"
      | some info =>
        match getBatIndexForLogicalSector v s with
        | Except.error e => Except.error e
        | Except.ok idx => BatEntry.fromStream v.file (info.offset + idx * 8)

/-- `get_block`: the shared empty block for `ZERO`, and for
{`NOT_PRESENT`, `UNDEFINED`, `UNMAPPED`} with offset 0; otherwise a plain
`f.read(metas["BlockSize"])` at the entry's offset, which returns fewer
bytes past EOF. -/
def getBlock (v : VhdxFile) (batEntry : BatEntry) : Except String ByteSeq :=
  if batEntry.state = BatPayloadBlockState.zero then Except.ok (emptyBlock v)
  else if (batEntry.state = BatPayloadBlockState.notPresent ∨
           batEntry.state = BatPayloadBlockState.undef ∨
           batEntry.state = BatPayloadBlockState.unmapped) ∧ batEntry.offset = 0 then
    Except.ok (emptyBlock v)
  else
    match metaGet v.metas.BlockSize "BlockSize" with
    | Except.error e => Except.error e
    | Except.ok bs => Except.ok (v.file.pyRead batEntry.offset bs)

/-- `iter_bat_payload_entries` body: `for i in range(raw_entry_count)`,
with an extra entry consumed (and discarded) whenever
`i > 0 and i % (chunk_ratio + 1) == 0`, and one entry yielded on *every*
iteration. -/
def iterBatEntriesLoop (file : ByteSeq) (cratio : Nat) :
    Nat → Nat → Nat → Except String (List BatEntry)
  | 0, _, _ => Except.ok []
  | Nat.succ k, i, pos =>
    if i > 0 ∧ i % (cratio + 1) = 0 then
      match BatEntry.fromStream file pos with
      | Except.error e => Except.error e
      | Except.ok _ =>
        match BatEntry.fromStream file (pos + 8) with
        | Except.error e => Except.error e
        | Except.ok entry =>
          match iterBatEntriesLoop file cratio k (i + 1) (pos + 16) with
          | Except.error e => Except.error e
          | Except.ok rest => Except.ok (entry :: rest)
    else
      match BatEntry.fromStream file pos with
      | Except.error e => Except.error e
      | Except.ok entry =>
        match iterBatEntriesLoop file cratio k (i + 1) (pos + 8) with
        | Except.error e => Except.error e
        | Except.ok rest => Except.ok (entry :: rest)

/-- `iter_bat_payload_entries`: seek to the BAT region and run the loop
for `length // 8` iterations. -/
def iterBatPayloadEntries (v : VhdxFile) : Except String (List BatEntry) := do
  let batBlob ← guid_to_blob REGION_GUID_BAT
  match lookupBlob v.regionTable batBlob with
  | none => Except.error "KeyError: BAT region"
  | some info => iterBatEntriesLoop v.file v.chunkRatio (info.length / 8) 0 info.offset

/-- Lines 650-658 of `is_sector_allocated`: a missing bitmap answers
`false`; otherwise test bit `sector_number % 2^23` (an out-of-range byte
index is Python's `IndexError`). -/
def bitmapAnswer (v' : VhdxFile) (sn : Nat) :
    Option ByteSeq → Except String (Bool × VhdxFile)
  | none => Except.ok (false, v')
  | some bm =>
    let indexInSb := sn % 2 ^ 23
    let byteOffset := indexInSb / 8
    let bitOffset := indexInSb % 8
    if byteOffset < bm.size then
      Except.ok (bm.get byteOffset / 2 ^ bitOffset % 2 = 1, v')
    else Except.error "IndexError: index out of range"

/-- `is_sector_allocated`: always true for a non-differencing container;
otherwise consult the per-chunk sector bitmap, reading and caching it on
a miss.  Faithful quirks: the bitmap BAT index is
`chunk_index + (1 + chunk_index) * chunk_ratio`, and a `FULLY_PRESENT`
bitmap entry reads `1 << 23` bytes. -/
def isSectorAllocated (v : VhdxFile) (s : Int) : Except String (Bool × VhdxFile) :=
  match sectorRangeCheck v s with
  | Except.error e => Except.error e
  | Except.ok _ =>
    match metaGet v.metas.HasParent "HasParent" with
    | Except.error e => Except.error e
    | Except.ok hasParent =>
      if ¬hasParent then Except.ok (true, v)
      else
        match pydiv (s.toNat * v.logicalSectorSize) v.blockSize with
        | Except.error e => Except.error e
        | Except.ok batIndex =>
          match pydiv batIndex v.chunkRatio with
          | Except.error e => Except.error e
          | Except.ok chunkIndex =>
            match cacheLookup v.sectorBitmapCache chunkIndex with
            | some cached => bitmapAnswer v s.toNat cached
            | none =>
              match guid_to_blob REGION_GUID_BAT with
              | Except.error e => Except.error e
              | Except.ok batBlob =>
                match lookupBlob v.regionTable batBlob with
                | none => Except.error "KeyError: BAT region"
                | some info =>
                  match BatEntry.fromStream v.file
                      (info.offset + (chunkIndex + (1 + chunkIndex) * v.chunkRatio) * 8) with
                  | Except.error e => Except.error e
                  | Except.ok sbEntry =>
                    if sbEntry.state = BatPayloadBlockState.notPresent then
                      bitmapAnswer (cacheInsert v chunkIndex none) s.toNat none
                    else if sbEntry.state = BatPayloadBlockState.fullyPresent then
                      let bm := v.file.pyRead sbEntry.offset (2 ^ 23)
                      bitmapAnswer (cacheInsert v chunkIndex (some bm)) s.toNat (some bm)
                    else Except.error "Invalid Sector Bitmap BAT entry state"

/-- Lines 665-673 of `get_sector` (the allocated branch): fetch the
block, slice the sector, and check the slice length. -/
def getSectorFromBlock (v : VhdxFile) (s : Int) (batEntry : BatEntry) :
    Except String (ByteSeq × VhdxFile) :=
  match getBlock v batEntry with
  | Except.error e => Except.error e
  | Except.ok block =>
    match pydiv v.blockSize v.logicalSectorSize with
    | Except.error e => Except.error e
    | Except.ok sectorsPerBlock =>
      match pymod s.toNat sectorsPerBlock with
      | Except.error e => Except.error e
      | Except.ok sectorIndexInBlock =>
        match metaGet v.metas.LogicalSectorSize "LogicalSectorSize" with
        | Except.error e => Except.error e
        | Except.ok lss =>
          let sectorData := block.pySlice (sectorIndexInBlock * lss)
              ((1 + sectorIndexInBlock) * lss)
          if sectorData.size ≠ lss then
            Except.error "Couldn't get full sector from block"
          else Except.ok (sectorData, v)

/-- `get_sector`: range check, read the payload BAT entry, then consult
`is_sector_allocated`; unallocated sectors return the shared empty
sector. -/
def getSector (v : VhdxFile) (s : Int) : Except String (ByteSeq × VhdxFile) :=
  match sectorRangeCheck v s with
  | Except.error e => Except.error e
  | Except.ok _ =>
    match getBatEntryForLogicalSector v s with
    | Except.error e => Except.error e
    | Except.ok batEntry =>
      match isSectorAllocated v s with
      | Except.error e => Except.error e
      | Except.ok (alloc, v') =>
        if alloc then getSectorFromBlock v' s batEntry
        else Except.ok (emptySector v', v')

/-! ## Concrete fixtures

A well-formed VHDX prefix whose region tables contain only the BAT
region (no metadata region): file identifier, two valid headers with
sequence number 0, and two identical one-entry region tables pointing
the BAT region at file offset 0x500000 with length 0x40 (8 raw
entries). -/

def listByte (l : List Nat) (i : Nat) : Nat := l.getD i 0

/-- One valid 64 KiB header block: magic `head`, version 1 (`u16` at
inner offset 66), everything else zero, so the sequence number is 0. -/
def validHeaderByte (j : Nat) : Nat :=
  if j < 4 then listByte HEAD_MAGIC j
  else if j = 66 then 1
  else 0

/-- One 64 KiB region table: magic `regi`, entry count 1, a single entry
`(BAT guid, offset 0x500000, length 0x40, flags 1)`. -/
def batOnlyRegionTableByte (j : Nat) : Nat :=
  if j < 4 then listByte REGION_TABLE_MAGIC j
  else if j = 8 then 1
  else if 16 ≤ j ∧ j < 32 then listByte regionGuidBatBlobList (j - 16)
  else if j = 34 then 80
  else if j = 40 then 64
  else if j = 44 then 1
  else 0

def c1FileByte (i : Nat) : Nat :=
  if i < 8 then listByte VHDX_MAGIC i
  else if 65536 ≤ i ∧ i < 131072 then validHeaderByte (i - 65536)
  else if 131072 ≤ i ∧ i < 196608 then validHeaderByte (i - 131072)
  else if 196608 ≤ i ∧ i < 262144 then batOnlyRegionTableByte (i - 196608)
  else if 262144 ≤ i then batOnlyRegionTableByte (i - 262144)
  else 0

/-- A 320 KiB file: the five structural blocks and nothing after them
(in particular no metadata region). -/
def c1File : ByteSeq := { size := 327680, byteAt := c1FileByte }

/-- The fallback of spec scenario 3: 512-byte logical sectors, 4 KiB
physical sectors, 1 MiB blocks, no parent — and no VirtualDiskSize. -/
def c1Fallback : MetaDict :=
  { LogicalSectorSize := some 512, PhysicalSectorSize := some 4096,
    BlockSize := some 1048576, HasParent := some false }

/-- Same file with the magic of header A zeroed out. -/
def c4FileByte (i : Nat) : Nat :=
  if 65536 ≤ i ∧ i < 65540 then 0 else c1FileByte i

def c4File : ByteSeq := { size := 327680, byteAt := c4FileByte }

def dummyHeader : Header :=
  { seqNumber := 0, fileWriteGuid := [], dataWriteGuid := [], logGuid := [],
    logVersion := 0, version := 1, logLength := 0, logOffset := 0 }

/-- A non-differencing 8 MiB container: 512-byte sectors, 1 MiB blocks
(chunk ratio 4096), BAT region at offset 0 with 8 raw entries, over an
all-zero 160-byte file. -/
def v5 : VhdxFile :=
  { file := { size := 160, byteAt := fun _ => 0 },
    header := dummyHeader,
    regionTable := [(regionGuidBatBlobList,
      { guid := regionGuidBatBlobList, offset := 0, length := 64, required := true })],
    metas := { BlockSize := some 1048576, HasParent := some false,
               VirtualDiskSize := some 8388608, LogicalSectorSize := some 512,
               PhysicalSectorSize := some 4096 },
    logicalSectorSize := 512, physicalSectorSize := 4096, blockSize := 1048576,
    chunkRatio := 4096, sectorBitmapCache := [], usingFallbackMetas := false }

/-- A differencing container over a file holding a `FULLY_PRESENT`
sector-bitmap BAT entry for chunk 0 (raw BAT index 4096, byte offset
32768, value `0x100006`: state 6, data offset 1 MiB) and 9 MiB of data,
so the bitmap read is not truncated. -/
def c2FileByte (i : Nat) : Nat :=
  if i = 32768 then 6 else if i = 32770 then 16 else 0

def c2v : VhdxFile :=
  { file := { size := 9437184, byteAt := c2FileByte },
    header := dummyHeader,
    regionTable := [(regionGuidBatBlobList,
      { guid := regionGuidBatBlobList, offset := 0, length := 32776, required := true })],
    metas := { BlockSize := some 1048576, HasParent := some true,
               VirtualDiskSize := some 8388608, LogicalSectorSize := some 512,
               PhysicalSectorSize := some 4096 },
    logicalSectorSize := 512, physicalSectorSize := 4096, blockSize := 1048576,
    chunkRatio := 4096, sectorBitmapCache := [], usingFallbackMetas := false }

/-- A container with chunk ratio 16 (512-byte sectors, 256 MiB blocks)
and a BAT region of length 144 = 18 raw entries, over an all-zero
160-byte file.  Raw indices 0..16 are the first chunk's 16 payload
entries plus its sector-bitmap entry at raw index 16; raw index 17 is a
payload entry of the second chunk. -/
def c3BatRegionEntry : RegionTableEntry :=
  { guid := regionGuidBatBlobList, offset := 0, length := 144, required := true }

def c3v : VhdxFile :=
  { file := { size := 160, byteAt := fun _ => 0 },
    header := dummyHeader,
    regionTable := [(regionGuidBatBlobList, c3BatRegionEntry)],
    metas := { BlockSize := some 268435456, HasParent := some false,
               VirtualDiskSize := some 4563402752, LogicalSectorSize := some 512,
               PhysicalSectorSize := some 4096 },
    logicalSectorSize := 512, physicalSectorSize := 4096, blockSize := 268435456,
    chunkRatio := 16, sectorBitmapCache := [], usingFallbackMetas := false }

/-! ## Claim theorems -/

/-- C1: opening a file whose region tables lack the metadata region in
tolerant mode with a fallback supplying LogicalSectorSize,
PhysicalSectorSize and BlockSize but no VirtualDiskSize *succeeds*, but —
contrary to the claim — `used_fallback_metas` is `False` and no
VirtualDiskSize is inferred: line 537 binds `metas` to the (non-empty)
fallback dict, so the `if not metas and fallback_metas` block at line 543
that would infer the size and set the flag never runs. -/
theorem c1_open_missing_metadata_region :
    (vhdxOpen c1File true (some c1Fallback)).map
      (fun v => (v.usingFallbackMetas, v.metas.VirtualDiskSize)) =
    Except.ok (false, none) := by
  rfl

/-- C4: with `ignore_faults=True`, an invalid header magic still aborts
the open: `VhdxFile.__init__` calls `Header.from_stream(f)` without
forwarding `ignore_faults`, so the downgrade-to-warning branch is
unreachable from `open`. -/
theorem c4_tolerant_open_header_magic :
    vhdxOpen c4File true (some c1Fallback) = Except.error "Invalid header magic" := by
  rfl

/-- C2: on a sector-bitmap BAT entry in state `FULLY_PRESENT`,
`is_sector_allocated` executes `f.read(1 << 23)` — it reads and caches
8 MiB (2^23 bytes), not the 1 MiB (2^20 bytes) the claim states. -/
theorem c2_sector_bitmap_read_bytes :
    (isSectorAllocated c2v 0).map
      (fun p => p.2.sectorBitmapCache.map (fun q => (q.1, q.2.map ByteSeq.size))) =
    Except.ok [(0, some 8388608)] := by
  rfl

/-- C3: `iter_bat_payload_entries` yields one entry per raw BAT index —
on a BAT region of 18 raw entries with chunk ratio 16 it yields 18
entries, not the `payload_block_count = 18 - 18 / 16 = 17` the claim
states (the loop body consumes an extra entry at iteration 17 but still
yields on every iteration, and the sector-bitmap entry at raw index 16
is yielded as a payload entry). -/
theorem c3_iter_bat_payload_entry_count :
    (iterBatPayloadEntries c3v).map List.length = Except.ok 18 ∧
    payloadBlockCount (c3BatRegionEntry.length / 8) c3v.chunkRatio = 17 := by
  exact ⟨by rfl, by rfl⟩

set_option maxRecDepth 100000 in
/-- C5 counterexample: for `v5`, `VirtualDiskSize // LogicalSectorSize`
is 16384, and `get_sector(16384)` — one past the last valid sector —
does *not* fail `OutOfRange`: the guard uses `>`, so the boundary value
passes and a full 512-byte (zero) sector is returned. -/
theorem c5_counterexample_one_past_end :
    v5.metas.VirtualDiskSize = some 8388608 ∧
    v5.metas.LogicalSectorSize = some 512 ∧
    (8388608 : Nat) / 512 = 16384 ∧
    (∃ r, getSector v5 16384 = Except.ok r ∧ r.1.toList = List.replicate 512 0) := by
  refine ⟨rfl, rfl, rfl, ⟨_, rfl, by decide⟩⟩

/-- C5 (amended): `get_sector` fails `OutOfRange` exactly for negative
sector numbers and for sector numbers strictly greater than
`VirtualDiskSize // LogicalSectorSize`; the boundary value itself passes
the range check. -/
theorem c5_out_of_range_amended (v : VhdxFile) (s : Int) (vds lss : Nat)
    (hvds : v.metas.VirtualDiskSize = some vds)
    (hlss : v.metas.LogicalSectorSize = some lss)
    (hlz : lss ≠ 0)
    (hrange : s > ((vds / lss : Nat) : Int) ∨ s < 0) :
    getSector v s = Except.error "Sector number out of range" := by
  have hc : sectorRangeCheck v s = Except.error "Sector number out of range" := by
    unfold sectorRangeCheck
    rw [hvds, hlss]
    simp only [metaGet]
    unfold pydiv
    rw [if_neg hlz]
    simp only []
    rw [if_pos hrange]
  unfold getSector
  rw [hc]

theorem c5_out_of_range_amended_witness :
    getSector v5 16385 = Except.error "Sector number out of range" ∧
    getSector v5 (-1) = Except.error "Sector number out of range" :=
  ⟨c5_out_of_range_amended v5 16385 8388608 512 rfl rfl (by decide) (Or.inl (by decide)),
   c5_out_of_range_amended v5 (-1) 8388608 512 rfl rfl (by decide) (Or.inr (by decide))⟩

/-- C6 counterexample: `get_block` uses a plain `f.read`, so on a
`FULLY_PRESENT` entry whose offset lies past the end of a truncated
100-byte file it returns 0 bytes, not a BlockSize (1 MiB) buffer. -/
def v6 : VhdxFile := { v5 with file := { size := 100, byteAt := fun _ => 0 } }

theorem c6_counterexample_truncated_read :
    v6.metas.BlockSize = some 1048576 ∧
    (getBlock v6 { state := BatPayloadBlockState.fullyPresent, offset := 1048576 }).map
      ByteSeq.size = Except.ok 0 :=
  ⟨rfl, rfl⟩

/-- C6 (amended): `get_block` returns the shared `BlockSize`-byte empty
block when the state is `ZERO`, or when the state is one of
{`NOT_PRESENT`, `UNDEFINED`, `UNMAPPED`} with offset 0; in every other
case it returns the bytes `f.read(BlockSize)` yields at the entry's
offset — exactly `BlockSize` bytes when the file extends that far, and
only the `min BlockSize (file_size - offset)` available bytes when it
does not. -/
theorem c6_get_block_amended (v : VhdxFile) (e : BatEntry) (bs : Nat)
    (hbs : v.metas.BlockSize = some bs) (hb : v.blockSize = bs) :
    (e.state = BatPayloadBlockState.zero →
       getBlock v e = Except.ok (emptyBlock v) ∧ (emptyBlock v).size = bs) ∧
    ((e.state = BatPayloadBlockState.notPresent ∨
      e.state = BatPayloadBlockState.undef ∨
      e.state = BatPayloadBlockState.unmapped) → e.offset = 0 →
       getBlock v e = Except.ok (emptyBlock v) ∧ (emptyBlock v).size = bs) ∧
    (e.state ≠ BatPayloadBlockState.zero →
     ¬((e.state = BatPayloadBlockState.notPresent ∨
        e.state = BatPayloadBlockState.undef ∨
        e.state = BatPayloadBlockState.unmapped) ∧ e.offset = 0) →
       ∃ b, getBlock v e = Except.ok b ∧ b.size = min bs (v.file.size - e.offset)) := by
  refine ⟨fun h => ?_, fun h1 h2 => ?_, fun h1 h2 => ?_⟩
  · constructor
    · unfold getBlock
      rw [if_pos h]
    · simp [emptyBlock, hb]
  · constructor
    · have hz : e.state ≠ BatPayloadBlockState.zero := by
        rcases h1 with h | h | h <;> rw [h] <;> decide
      unfold getBlock
      rw [if_neg hz, if_pos ⟨h1, h2⟩]
    · simp [emptyBlock, hb]
  · unfold getBlock
    rw [if_neg h1, if_neg h2, hbs]
    exact ⟨_, rfl, rfl⟩

theorem c6_get_block_amended_witness :
    (getBlock v5 { state := BatPayloadBlockState.zero, offset := 4096 } =
       Except.ok (emptyBlock v5) ∧ (emptyBlock v5).size = 1048576) ∧
    (getBlock v5 { state := BatPayloadBlockState.unmapped, offset := 0 } =
       Except.ok (emptyBlock v5) ∧ (emptyBlock v5).size = 1048576) ∧
    (∃ b, getBlock v5 { state := BatPayloadBlockState.fullyPresent, offset := 0 } =
       Except.ok b ∧ b.size = min 1048576 (v5.file.size - 0)) :=
  ⟨(c6_get_block_amended v5 _ 1048576 rfl rfl).1 rfl,
   (c6_get_block_amended v5 _ 1048576 rfl rfl).2.1 (by decide) rfl,
   (c6_get_block_amended v5 _ 1048576 rfl rfl).2.2 (by decide) (by decide)⟩

/-- C7: the current header is the one with the strictly greater sequence
number; with equal sequence numbers header B is selected
(`header_a if header_a.sequence_number > header_b.sequence_number else header_b`). -/
theorem c7_header_selection (a b : Header) :
    (a.seqNumber > b.seqNumber → selectHeader a b = a) ∧
    (b.seqNumber > a.seqNumber → selectHeader a b = b) ∧
    (a.seqNumber = b.seqNumber → selectHeader a b = b) := by
  refine ⟨fun h => ?_, fun h => ?_, fun h => ?_⟩
  · unfold selectHeader
    rw [if_pos h]
  · unfold selectHeader
    rw [if_neg (by omega)]
  · unfold selectHeader
    rw [if_neg (by omega)]

def mkHeader (seq : Nat) : Header :=
  { seqNumber := seq, fileWriteGuid := [], dataWriteGuid := [], logGuid := [],
    logVersion := 0, version := 1, logLength := 0, logOffset := 0 }

theorem c7_header_selection_witness :
    selectHeader (mkHeader 1) (mkHeader 2) = mkHeader 2 ∧
    selectHeader (mkHeader 3) (mkHeader 3) = mkHeader 3 :=
  ⟨(c7_header_selection (mkHeader 1) (mkHeader 2)).2.1 (by decide),
   (c7_header_selection (mkHeader 3) (mkHeader 3)).2.2 rfl⟩

/-- A container whose single raw BAT entry has value 4 (state 4). -/
def c8v : VhdxFile :=
  { v5 with
    file := { size := 8, byteAt := fun i => if i = 0 then 4 else 0 },
    regionTable := [(regionGuidBatBlobList,
      { guid := regionGuidBatBlobList, offset := 0, length := 8, required := true })] }

/-- C8: a raw BAT value whose low three bits are 4 or 5 fails to decode
(`BatPayloadBlockState(state)` raises `ValueError`), and consequently
`get_bat_entry_for_logical_sector` and `iter_bat_payload_entries` fail on
such an entry — here an ordinary payload entry, not a sector-bitmap one. -/
theorem c8_bat_state_4_5 :
    (∀ raw : Nat, raw % 8 = 4 ∨ raw % 8 = 5 →
       BatEntry.fromRaw raw = Except.error "is not a valid BatPayloadBlockState") ∧
    getBatEntryForLogicalSector c8v 0 =
      Except.error "is not a valid BatPayloadBlockState" ∧
    iterBatPayloadEntries c8v = Except.error "is not a valid BatPayloadBlockState" := by
  refine ⟨fun raw h => ?_, by rfl, by rfl⟩
  unfold BatEntry.fromRaw
  rcases h with h | h <;> rw [h] <;> rfl

theorem c8_bat_state_4_5_witness :
    BatEntry.fromRaw 12 = Except.error "is not a valid BatPayloadBlockState" :=
  c8_bat_state_4_5.1 12 (Or.inl rfl)

/-- C9: `get_sector` reads the payload BAT entry *before* consulting
`is_sector_allocated`, so a failure of that read propagates even when
the sector is unallocated and the empty sector would otherwise be
returned. -/
theorem c9_bat_error_before_allocation (v : VhdxFile) (s : Int) (e : String)
    (v' : VhdxFile)
    (h1 : getBatEntryForLogicalSector v s = Except.error e)
    (h2 : isSectorAllocated v s = Except.ok (false, v')) :
    getSector v s = Except.error e := by
  unfold getSector
  cases hc : sectorRangeCheck v s with
  | error e0 =>
    have h1' := h1
    unfold getBatEntryForLogicalSector at h1'
    rw [hc] at h1'
    simp only [] at h1' ⊢
    injection h1' with he
    rw [he]
  | ok u =>
    simp only []
    rw [h1]

/-- A differencing container with chunk 0's sector bitmap already cached
as missing, over an empty (0-byte) file: the payload BAT entry read
short-reads while `is_sector_allocated` answers `false` from the cache. -/
def v9 : VhdxFile :=
  { v5 with
    file := { size := 0, byteAt := fun _ => 0 },
    metas := { BlockSize := some 1048576, HasParent := some true,
               VirtualDiskSize := some 8388608, LogicalSectorSize := some 512,
               PhysicalSectorSize := some 4096 },
    sectorBitmapCache := [(0, none)] }

theorem c9_bat_error_before_allocation_witness :
    getBatEntryForLogicalSector v9 0 = Except.error "short read" ∧
    isSectorAllocated v9 0 = Except.ok (false, v9) ∧
    getSector v9 0 = Except.error "short read" :=
  ⟨rfl, rfl, c9_bat_error_before_allocation v9 0 "short read" v9 rfl rfl⟩

/-- The comparison loop accepts every table pair whose entries agree on
guid, offset and length key-by-key — the required flag is not consulted
(`RegionTableEntry.__eq__`). -/
theorem compareRegionEntries_complete (b : RegionTable) :
    ∀ a : List (List Nat × RegionTableEntry),
      (∀ k e, (k, e) ∈ a → ∃ e', lookupBlob b k = some e' ∧
         e.guid = e'.guid ∧ e.offset = e'.offset ∧ e.length = e'.length) →
      compareRegionEntries a b = Except.ok () := by
  intro a
  induction a with
  | nil => intro _; rfl
  | cons p rest ih =>
    intro h
    obtain ⟨k, e⟩ := p
    obtain ⟨e', hb, hg, ho, hl⟩ := h k e (List.mem_cons_self _ _)
    unfold compareRegionEntries
    rw [hb]
    have heq : regionTableEntryEq e e' = true := by
      simp [regionTableEntryEq, hg, ho, hl]
    simp only []
    rw [if_pos heq]
    exact ih (fun k' e'' h' => h k' e'' (List.mem_cons_of_mem _ h'))

/-- C10: two region tables of the same length whose entries agree on
GUID, offset and length for every key of the first copy — the required
flags being unconstrained — pass the open-time consistency check, and
the merged table is the first copy. -/
theorem c10_required_flag_ignored (a b : RegionTable)
    (hlen : a.length = b.length)
    (hmatch : ∀ k e, (k, e) ∈ a → ∃ e', lookupBlob b k = some e' ∧
       e.guid = e'.guid ∧ e.offset = e'.offset ∧ e.length = e'.length) :
    mergeRegionTables a b = Except.ok a := by
  unfold mergeRegionTables
  rw [if_neg (by simp [hlen])]
  rw [compareRegionEntries_complete b a hmatch]

def c10entryA : RegionTableEntry :=
  { guid := regionGuidBatBlobList, offset := 1048576, length := 64, required := true }

def c10entryB : RegionTableEntry :=
  { guid := regionGuidBatBlobList, offset := 1048576, length := 64, required := false }

theorem c10_required_flag_ignored_witness :
    c10entryA.required = true ∧ c10entryB.required = false ∧
    mergeRegionTables [(regionGuidBatBlobList, c10entryA)]
        [(regionGuidBatBlobList, c10entryB)] =
      Except.ok [(regionGuidBatBlobList, c10entryA)] :=
  ⟨rfl, rfl,
   c10_required_flag_ignored _ _ rfl (by
     intro k e h
     simp only [List.mem_singleton, Prod.mk.injEq] at h
     obtain ⟨hk, he⟩ := h
     subst hk
     subst he
     exact ⟨c10entryB, by decide, rfl, rfl, rfl⟩)⟩

end Vhdx
